import Mathlib

/-!
Shallow embedding of the Team-Pulse-Check identity and team-access subsystem
(src/backend/src/services/auth_service.py, src/backend/src/services/team_service.py,
src/backend/src/routes/auth_route.py, src/backend/src/db/models.py).

Python dynamic values that matter to control flow (the `(bool, email)` tuple that
`AuthService.verify_token` returns, `None`, truthiness) are embedded as `PyVal`.
JWTs are embedded as an optional claim set: `none` models a string whose signature
check fails or that cannot be decoded (python-jose raises `JWTError`, including
`ExpiredSignatureError` when the `exp` claim is not in the future).
Wall-clock time is an abstract `Nat` measured in minutes.
-/

namespace PulseCheck

/-- Python runtime values relevant to the embedded control flow: `None`, booleans,
strings and 2-tuples. -/
inductive PyVal where
  | none : PyVal
  | bool : Bool → PyVal
  | str : String → PyVal
  | pair : PyVal → PyVal → PyVal
deriving DecidableEq, Repr

/-- Python truthiness: `None` and `""` and `False` are falsy; a 2-tuple is always truthy. -/
def PyVal.truthy : PyVal → Bool
  | .none => false
  | .bool b => b
  | .str s => !(s == "")
  | .pair _ _ => true

/-- Python `==` on the embedded values: structural on like kinds, `False` across kinds
(a string never equals a tuple or `None`). -/
def PyVal.eqVal : PyVal → PyVal → Bool
  | .none, .none => true
  | .bool a, .bool b => a == b
  | .str a, .str b => a == b
  | .pair a b, .pair c d => PyVal.eqVal a c && PyVal.eqVal b d
  | _, _ => false

/-- Python truthiness of an optional integer (`None` and `0` are falsy). -/
def pyTruthyNat : Option Nat → Bool
  | Option.none => false
  | some n => !(n == 0)

/-- The claim set of a decoded JWT: `sub`, `exp` (absolute expiry) and the `type`
discriminator, each possibly absent. -/
structure JwtPayload where
  sub : PyVal
  exp : Option Nat
  typ : Option String
deriving DecidableEq, Repr

/-- A JWT as the verifier sees it: `none` is a token whose signature check or
decoding fails; `some p` decodes to payload `p` (subject to the expiry check). -/
abbrev JwtToken := Option JwtPayload

/-- `jose.jwt.decode` at time `now`: fails (raises `JWTError`) on a bad token and on
an `exp` claim that is not strictly in the future; a payload without `exp` decodes. -/
def jwtDecode (now : Nat) : JwtToken → Option JwtPayload
  | Option.none => Option.none
  | some p =>
    match p.exp with
    | some e => if now < e then some p else Option.none
    | Option.none => some p

/-- `Settings.EMAIL_VERIFICATION_TOKEN_EXPIRE_MINUTES` default (utils/config.py). -/
def EMAIL_VERIFICATION_TOKEN_EXPIRE_MINUTES : Nat := 1440

/-- `AuthService.PASSWORD_RESET_TOKEN_EXPIRE_MINUTES`. -/
def PASSWORD_RESET_TOKEN_EXPIRE_MINUTES : Nat := 30

/-- `AuthService.ACCESS_TOKEN_EXPIRE_MINUTES`. -/
def ACCESS_TOKEN_EXPIRE_MINUTES : Nat := 60

/-- `AuthService.ACCESS_TOKEN_EXPIRE_MINUTES_EXTENDED`. -/
def ACCESS_TOKEN_EXPIRE_MINUTES_EXTENDED : Nat := 24 * 7 * 60

/-- `AuthService.REFRESH_TOKEN_EXPIRE_DAYS`. -/
def REFRESH_TOKEN_EXPIRE_DAYS : Nat := 7

/-- `AuthService.REFRESH_TOKEN_EXPIRE_DAYS_EXTENDED`. -/
def REFRESH_TOKEN_EXPIRE_DAYS_EXTENDED : Nat := 30

/-- `AuthService.create_verification_token`. -/
def create_verification_token (now : Nat) (email : String) : JwtToken :=
  some { sub := .str email, exp := some (now + EMAIL_VERIFICATION_TOKEN_EXPIRE_MINUTES),
         typ := some "email_verification" }

/-- `AuthService.create_password_reset_token`. -/
def create_password_reset_token (now : Nat) (email : String) : JwtToken :=
  some { sub := .str email, exp := some (now + PASSWORD_RESET_TOKEN_EXPIRE_MINUTES),
         typ := some "password_reset" }

/-- `AuthService.create_access_token`; the `sub` claim is whatever value the caller
put in `data`. -/
def create_access_token (now : Nat) (sub : PyVal) (expires_minutes : Option Nat) : JwtToken :=
  some { sub := sub,
         exp := some (now + (match expires_minutes with
                             | some m => if m == 0 then ACCESS_TOKEN_EXPIRE_MINUTES else m
                             | Option.none => ACCESS_TOKEN_EXPIRE_MINUTES)),
         typ := some "access_token" }

/-- `AuthService.create_refresh_token` (expiry given in days, embedded in minutes). -/
def create_refresh_token (now : Nat) (sub : PyVal) (expires_days : Option Nat) : JwtToken :=
  some { sub := sub,
         exp := some (now + (match expires_days with
                             | some d => if d == 0 then REFRESH_TOKEN_EXPIRE_DAYS else d
                             | Option.none => REFRESH_TOKEN_EXPIRE_DAYS) * 1440),
         typ := some "refresh_token" }

/-- `AuthService.verify_token` (auth_service.py lines 131-162): decode, check the
truthiness of `sub` and `exp`, check the `type` discriminator, return
`(is_valid, email-or-None)`; every `JWTError` is caught and mapped to `(False, None)`. -/
def verify_token (now : Nat) (token : JwtToken) (token_type : String) : Bool × PyVal :=
  match jwtDecode now token with
  | Option.none => (false, .none)
  | some payload =>
    if !payload.sub.truthy || !pyTruthyNat payload.exp then (false, .none)
    else if payload.typ != some token_type then (false, .none)
    else (true, payload.sub)

/-- The value of `auth_service.verify_token(...)` as the Python caller receives it:
a 2-tuple `(is_valid, email-or-None)`. -/
def verify_token_py (now : Nat) (token : JwtToken) (token_type : String) : PyVal :=
  let r := verify_token now token token_type
  .pair (.bool r.1) r.2

/-- `models.User` (db/models.py). Timestamps are abstract minutes. -/
structure User where
  id : Nat
  email : String
  username : String
  hashed_password : String
  full_name : Option String
  is_active : Bool
  is_superuser : Bool
  created_at : Nat
  updated_at : Nat
  last_login : Option Nat
deriving DecidableEq, Repr

/-- `models.UserSession` (db/models.py lines 98-130). -/
structure UserSession where
  id : Nat
  user_id : Nat
  token : String
  expires_at : Nat
  created_at : Nat
  last_active_at : Nat
  ip_address : Option String
  user_agent : Option String
  is_active : Bool
deriving DecidableEq, Repr

/-- `models.Team`. -/
structure Team where
  id : Nat
  name : String
  description : Option String
  invite_code : String
  is_active : Bool
  created_by_id : Nat
deriving DecidableEq, Repr

/-- A row of the `team_members` association table. -/
structure TeamMember where
  user_id : Nat
  team_id : Nat
  role : String
  joined_at : Nat
  is_active : Bool
deriving DecidableEq, Repr

/-- `models.TeamInvitation`. -/
structure TeamInvitation where
  id : Nat
  team_id : Nat
  inviter_id : Nat
  invitee_id : Option Nat
  invitee_email : String
  status : String
  token : String
  expires_at : Nat
deriving DecidableEq, Repr

/-- The kind of message handed to the outbound mail port (email_service.py). -/
inductive MailKind where
  | verification : MailKind
  | passwordReset : MailKind
deriving DecidableEq, Repr

/-- One call on the mail port: recipient and the token embedded in the message. -/
structure Mail where
  recipient : String
  kind : MailKind
  token : JwtToken
deriving DecidableEq, Repr

/-- The persistent state the embedded operations read and write: the database
tables, the autoincrement counter for invitations, and the log of mail-port calls. -/
structure DBState where
  users : List User
  sessions : List UserSession
  teams : List Team
  team_members : List TeamMember
  invitations : List TeamInvitation
  next_invitation_id : Nat
  mail_log : List Mail
deriving DecidableEq, Repr

/-- Replace the first element satisfying `p` by its image under `f` (how a mutation
of the row returned by SQLAlchemy `.first()` followed by `commit` acts on a table). -/
def updateFirst (p : α → Bool) (f : α → α) : List α → List α
  | [] => []
  | x :: xs => if p x then f x :: xs else x :: updateFirst p f xs

/-- Models the passlib bcrypt port: hashing tags the password, salting being
immaterial to the embedded control flow. -/
def hash_password (password : String) : String := "bcrypt$" ++ password

/-- `AuthService.verify_password` over the modelled hash. -/
def verify_password (plain_password hashed_password : String) : Bool :=
  hashed_password == "bcrypt$" ++ plain_password

/-- `AuthService.authenticate_user` (auth_service.py lines 222-245): `None` when the
user is absent, the password mismatches, or the user is not active. -/
def authenticate_user (db : DBState) (email password : String) : Option User :=
  match db.users.find? (fun u => u.email == email) with
  | Option.none => Option.none
  | some user =>
    if !(verify_password password user.hashed_password) then Option.none
    else if !user.is_active then Option.none
    else some user

/-- The row filter of `AuthService.validate_session`: token match, still active,
`expires_at` strictly in the future. -/
def session_filter (now : Nat) (token : String) (s : UserSession) : Bool :=
  s.token == token && s.is_active && decide (now < s.expires_at)

/-- `AuthService.validate_session` (auth_service.py lines 293-322): look up the
session, touch `last_active_at`, return `session.user` (the row with the session's
`user_id`). -/
def validate_session (db : DBState) (now : Nat) (token : String) : Option User × DBState :=
  match db.sessions.find? (session_filter now token) with
  | Option.none => (Option.none, db)
  | some sess =>
    (db.users.find? (fun u => u.id == sess.user_id),
     { db with sessions := updateFirst (session_filter now token)
                 (fun s => { s with last_active_at := now }) db.sessions })

/-- `AuthService.terminate_session` (auth_service.py lines 324-349): deactivate the
matching active session; `False` when there is none. -/
def terminate_session (db : DBState) (token : String) : Bool × DBState :=
  match db.sessions.find? (fun s => s.token == token && s.is_active) with
  | Option.none => (false, db)
  | some _ =>
    (true,
     { db with sessions := updateFirst (fun s => s.token == token && s.is_active)
                 (fun s => { s with is_active := false }) db.sessions })

/-- Outcome of the `/auth/login` route: the access token, the refresh token set as
a cookie and the logged-in user id, or an HTTP error with its detail string. -/
inductive LoginResult where
  | success : Nat → JwtToken → JwtToken → LoginResult
  | httpError : Nat → String → LoginResult
deriving DecidableEq, Repr

/-- The `login` route (auth_route.py lines 345-483): 401 with one detail for a
missing user and for a password mismatch, 400 with another detail for an unverified
user, otherwise a fresh access/refresh token pair (no database write). -/
def login (db : DBState) (now : Nat) (email password : String) (remember_me : Bool) :
    LoginResult :=
  match db.users.find? (fun u => u.email == email) with
  | Option.none => .httpError 401 "Incorrect email or password"
  | some user =>
    if !(verify_password password user.hashed_password) then
      .httpError 401 "Incorrect email or password"
    else if !user.is_active then
      .httpError 400 "Email not verified. Please verify your email before logging in."
    else
      let access_token_expires :=
        if remember_me then ACCESS_TOKEN_EXPIRE_MINUTES_EXTENDED else ACCESS_TOKEN_EXPIRE_MINUTES
      let refresh_token_expires :=
        if remember_me then REFRESH_TOKEN_EXPIRE_DAYS_EXTENDED else REFRESH_TOKEN_EXPIRE_DAYS
      .success user.id
        (create_access_token now (.str user.email) (some access_token_expires))
        (create_refresh_token now (.str user.email) (some refresh_token_expires))

/-- Outcome of the mail-sending auth routes (`/auth/send-verification-email`,
`/auth/forgot-password`): a 200 body carrying `email_sent`, or an HTTP error. -/
inductive EmailRouteResult where
  | ok : Bool → EmailRouteResult
  | httpError : Nat → EmailRouteResult
deriving DecidableEq, Repr

/-- The `send_verification_email` route (auth_route.py lines 191-259): 404 when the
email belongs to no user, otherwise a fresh verification token is issued and sent,
with no check of `is_active`. The mail port is modelled as always delivering. -/
def send_verification_email (db : DBState) (now : Nat) (email : String) :
    EmailRouteResult × DBState :=
  match db.users.find? (fun u => u.email == email) with
  | Option.none => (.httpError 404, db)
  | some _ =>
    let verification_token := create_verification_token now email
    (.ok true,
     { db with mail_log := db.mail_log ++
         [{ recipient := email, kind := .verification, token := verification_token }] })

/-- The `forgot_password` route (auth_route.py lines 625-688): a 200 response in
every case; when the user is absent nothing is issued or sent, otherwise a
`password_reset` token is created and handed to the mail port. -/
def forgot_password (db : DBState) (now : Nat) (email : String) :
    EmailRouteResult × DBState :=
  match db.users.find? (fun u => u.email == email) with
  | Option.none => (.ok false, db)
  | some _ =>
    let reset_token := create_password_reset_token now email
    (.ok true,
     { db with mail_log := db.mail_log ++
         [{ recipient := email, kind := .passwordReset, token := reset_token }] })

/-- Outcome of the `/auth/reset-password` route. Every exception raised inside the
route body, the 404 included, is caught by its `except` clause and re-raised as a
400, so the error detail is not modelled. -/
inductive ResetResult where
  | ok : ResetResult
  | httpError : Nat → ResetResult
deriving DecidableEq, Repr

/-- The `reset_password` route (auth_route.py lines 706-781) as written: it binds
`email` to the full `(is_valid, email)` tuple returned by
`auth_service.verify_token(reset_data.token)` — called with the default token type
`email_verification` — tests the truthiness of that tuple, and then filters users
on `User.email == email` with the tuple as the right-hand side. -/
def reset_password (db : DBState) (now : Nat) (token : JwtToken) (new_password : String) :
    ResetResult × DBState :=
  let email : PyVal := verify_token_py now token "email_verification"
  if !email.truthy then (.httpError 400, db)
  else
    match db.users.find? (fun u => PyVal.eqVal (.str u.email) email) with
    | Option.none => (.httpError 400, db)
    | some user =>
      let hashed := hash_password new_password
      (.ok,
       { db with users := updateFirst (fun u => u.id == user.id)
                   (fun u => { u with hashed_password := hashed }) db.users })

/-- Outcome of the `/auth/refresh-token` route: a new access/refresh pair, or an
HTTP error (every failure inside the `try` block is re-raised as a 401). -/
inductive RefreshResult where
  | ok : JwtToken → JwtToken → RefreshResult
  | httpError : Nat → RefreshResult
deriving DecidableEq, Repr

/-- The `refresh_token` route (auth_route.py lines 486-578) as written: 401 when the
cookie is absent; otherwise it binds `email` to the tuple returned by
`auth_service.verify_token(refresh_token)` — default token type
`email_verification` — and looks the user up with that tuple as the email. -/
def refresh_token (db : DBState) (now : Nat) (cookie : Option JwtToken) : RefreshResult :=
  match cookie with
  | Option.none => .httpError 401
  | some token =>
    let email : PyVal := verify_token_py now token "email_verification"
    if !email.truthy then .httpError 401
    else
      match db.users.find? (fun u => PyVal.eqVal (.str u.email) email) with
      | Option.none => .httpError 401
      | some user =>
        if !user.is_active then .httpError 401
        else
          .ok (create_access_token now email Option.none)
             (create_refresh_token now email Option.none)

/-- Outcome of `join_team_by_invite_code`: the joined team id with the assigned
role, or an HTTP error with its detail. -/
inductive JoinResult where
  | ok : Nat → String → JoinResult
  | httpError : Nat → String → JoinResult
deriving DecidableEq, Repr

/-- `join_team_by_invite_code` (team_service.py lines 75-132): 404 for a missing
user or a code matching no team; 400 when ANY `team_members` row exists for the
(user, team) pair — the membership query filters only on `user_id` and `team_id`,
not on `is_active`; otherwise a `member`-role active row is inserted. -/
def join_team_by_invite_code (db : DBState) (now : Nat) (user_id : Nat)
    (invite_code : String) : JoinResult × DBState :=
  match db.users.find? (fun u => u.id == user_id) with
  | Option.none => (.httpError 404 "User not found", db)
  | some _ =>
    match db.teams.find? (fun t => t.invite_code == invite_code) with
    | Option.none => (.httpError 404 "Invalid invite code", db)
    | some team =>
      match db.team_members.find? (fun m => m.user_id == user_id && m.team_id == team.id) with
      | some _ => (.httpError 400 "User is already a member of this team", db)
      | Option.none =>
        let row : TeamMember :=
          { user_id := user_id, team_id := team.id, role := "member",
            joined_at := now, is_active := true }
        (.ok team.id "member", { db with team_members := db.team_members ++ [row] })

/-- Outcome of `create_team_invitation`: the (new or pre-existing) invitation row,
or an HTTP error with its detail. -/
inductive InviteResult where
  | ok : TeamInvitation → InviteResult
  | httpError : Nat → String → InviteResult
deriving DecidableEq, Repr

/-- The membership-conflict check of `create_team_invitation`: performed only when
`invitee_id` is truthy, and only against ACTIVE membership rows. -/
def invitee_member_conflict (db : DBState) (team_id : Nat) (invitee_id : Option Nat) : Bool :=
  if pyTruthyNat invitee_id then
    (db.team_members.find? (fun m =>
       some m.user_id == invitee_id && m.team_id == team_id && m.is_active)).isSome
  else false

/-- The deduplication filter of `create_team_invitation`: same team, `pending`
status, and the invitee matched by id when `invitee_id` is truthy, by email
otherwise. -/
def pending_invitation_filter (team_id : Nat) (invitee_email : String)
    (invitee_id : Option Nat) (inv : TeamInvitation) : Bool :=
  inv.team_id == team_id && inv.status == "pending" &&
    (if pyTruthyNat invitee_id then inv.invitee_id == invitee_id
     else inv.invitee_email == invitee_email)

/-- Models `secrets.token_urlsafe(32)` for invitations: a fresh unguessable token,
embedded deterministically from the autoincrement counter. -/
def mkInvitationToken (n : Nat) : String := "invitation-token-" ++ toString n

/-- `create_team_invitation` (team_service.py lines 430-541): 404 when the team is
absent; 403 when the inviter holds no active membership (the `if not role` check
also fires on an empty-string role); 400 when a truthy `invitee_id` already has an
active membership; an existing `pending` invitation for the pair is returned
unchanged; otherwise a fresh `pending` invitation is inserted. -/
def create_team_invitation (db : DBState) (now : Nat) (team_id inviter_id : Nat)
    (invitee_email : String) (invitee_id : Option Nat) (expiration_days : Nat) :
    InviteResult × DBState :=
  match db.teams.find? (fun t => t.id == team_id) with
  | Option.none => (.httpError 404 "Team not found", db)
  | some _ =>
    match db.team_members.find? (fun m =>
        m.user_id == inviter_id && m.team_id == team_id && m.is_active) with
    | Option.none => (.httpError 403 "You are not a member of this team", db)
    | some member_row =>
      if member_row.role == "" then (.httpError 403 "You are not a member of this team", db)
      else if invitee_member_conflict db team_id invitee_id then
        (.httpError 400 "User is already a member of this team", db)
      else
        match db.invitations.find? (pending_invitation_filter team_id invitee_email invitee_id) with
        | some existing_invitation => (.ok existing_invitation, db)
        | Option.none =>
          let invitation : TeamInvitation :=
            { id := db.next_invitation_id, team_id := team_id, inviter_id := inviter_id,
              invitee_id := invitee_id, invitee_email := invitee_email,
              status := "pending", token := mkInvitationToken db.next_invitation_id,
              expires_at := now + expiration_days * 1440 }
          (.ok invitation,
           { db with invitations := db.invitations ++ [invitation],
                     next_invitation_id := db.next_invitation_id + 1 })

/-! Helper lemmas. -/

theorem PyVal.eqVal_str_pair (s : String) (a b : PyVal) :
    PyVal.eqVal (.str s) (.pair a b) = false := rfl

theorem PyVal.truthy_pair (a b : PyVal) : (PyVal.pair a b).truthy = true := rfl

/-- The user lookup of the broken routes: a string email column never equals the
`(is_valid, email)` tuple. -/
theorem find?_email_eq_tuple (users : List User) (a b : PyVal) :
    users.find? (fun u => PyVal.eqVal (.str u.email) (.pair a b)) = Option.none := by
  rw [List.find?_eq_none]
  intro u _
  simp [PyVal.eqVal_str_pair]

/-! ## C1 — password-reset round trip (code bug)

The `reset_password` route binds the `(is_valid, email)` tuple returned by
`verify_token` (checked against the default `email_verification` type, not
`password_reset`) and uses it as the email in the user lookup, so the lookup never
matches and every call fails with a 400, the state untouched. -/

/-- C1: for every database state, time, token and new password — in particular for
a freshly issued `password_reset` token of a registered user — the `reset_password`
route fails with a 400 and leaves the state (hence the stored password hash)
unchanged, contradicting the claimed round trip. -/
theorem reset_password_never_succeeds (db : DBState) (now : Nat) (token : JwtToken)
    (new_password : String) :
    reset_password db now token new_password = (.httpError 400, db) := by
  unfold reset_password verify_token_py
  simp [PyVal.truthy_pair, find?_email_eq_tuple]

/-! ## C4 — refresh rotation (code bug)

The `refresh_token` route suffers the same slip: the tuple returned by
`verify_token` (again checked against `email_verification`, not `refresh_token`)
is used as the email of the user lookup, so every refresh attempt returns 401. -/

/-- C4: for every database state, time and cookie — in particular for a valid,
unexpired `refresh_token` whose subject is an existing active user — the
`refresh_token` route returns a 401 and never a rotated token pair. -/
theorem refresh_token_never_succeeds (db : DBState) (now : Nat)
    (cookie : Option JwtToken) :
    refresh_token db now cookie = .httpError 401 := by
  cases cookie with
  | none => rfl
  | some token =>
    unfold refresh_token verify_token_py
    simp [PyVal.truthy_pair, find?_email_eq_tuple]

/-! ## C10 — totality of token verification -/

/-- C10: `verify_token` is a total function into `(is_valid, email-or-None)` pairs
(never raising, by construction of the embedding: the `JWTError` handler is the
`none` branch of `jwtDecode`): an undecodable/bad-signature token, an expired
token, a payload with a falsy subject, a payload with no expiry claim, and a
payload whose type discriminator differs from the expected type all yield
`(false, None)`. -/
theorem verify_token_total (now : Nat) (token : JwtToken) (token_type : String) :
    (token = Option.none → verify_token now token token_type = (false, .none))
    ∧ (∀ p e, token = some p → p.exp = some e → e ≤ now →
        verify_token now token token_type = (false, .none))
    ∧ (∀ p, token = some p → p.sub.truthy = false →
        verify_token now token token_type = (false, .none))
    ∧ (∀ p, token = some p → p.exp = Option.none →
        verify_token now token token_type = (false, .none))
    ∧ (∀ p, token = some p → p.typ ≠ some token_type →
        verify_token now token token_type = (false, .none)) := by
  refine ⟨?_, ?_, ?_, ?_, ?_⟩
  · rintro rfl
    rfl
  · rintro p e rfl he hle
    simp [verify_token, jwtDecode, he, Nat.not_lt.mpr hle]
  · rintro ⟨s, ex, ty⟩ rfl hsub
    cases ex with
    | none => simp [verify_token, jwtDecode, pyTruthyNat, hsub]
    | some e =>
      by_cases hlt : now < e
      · simp [verify_token, jwtDecode, hlt, hsub]
      · simp [verify_token, jwtDecode, hlt]
  · rintro ⟨s, ex, ty⟩ rfl hexp
    cases hexp
    simp [verify_token, jwtDecode, pyTruthyNat]
  · rintro ⟨s, ex, ty⟩ rfl htyp
    cases ex with
    | none =>
      cases hsub : s.truthy <;> simp [verify_token, jwtDecode, pyTruthyNat, hsub, htyp]
    | some e =>
      by_cases hlt : now < e
      · have he : ¬(e = 0) := by omega
        cases hsub : s.truthy <;>
          simp [verify_token, jwtDecode, pyTruthyNat, hlt, hsub, htyp, he]
      · simp [verify_token, jwtDecode, hlt]

/-- The concrete token of the C10 witness: well formed, unexpired, of type
`password_reset`. -/
def c10Payload : JwtPayload :=
  { sub := .str "alice@example.com", exp := some 30, typ := some "password_reset" }

/-- Witness for C10 at a concrete token: a well-formed, unexpired `password_reset`
token checked against the `email_verification` type is rejected as `(false, None)`. -/
theorem verify_token_total_witness :
    verify_token 0 (some c10Payload) "email_verification" = (false, .none) :=
  (verify_token_total 0 (some c10Payload) "email_verification").2.2.2.2
    c10Payload rfl (by decide)

/-! ## C3 — undifferentiated authentication failure (corrected)

`AuthService.authenticate_user` does return the same `None` in all three failure
cases, but the `login` route re-implements the checks and distinguishes the
inactive-user case: it answers 400 with its own detail instead of the generic 401. -/

/-- The registered-but-unverified user of the C3 scenario. -/
def c3User : User :=
  { id := 1, email := "carol@example.com", username := "carol",
    hashed_password := hash_password "correct-pw", full_name := Option.none,
    is_active := false, is_superuser := false, created_at := 0, updated_at := 0,
    last_login := Option.none }

/-- The C3 scenario state: a single inactive user. -/
def c3Db : DBState :=
  { users := [c3User], sessions := [], teams := [], team_members := [],
    invitations := [], next_invitation_id := 1, mail_log := [] }

/-- C3 counterexample: with the correct password for an inactive user, the login
route answers 400 with a dedicated detail, different from the 401 it gives for an
absent user — the three failure cases are NOT one and the same outcome to the
caller. -/
theorem login_distinguishes_inactive_user :
    login c3Db 0 "carol@example.com" "correct-pw" false
      = .httpError 400 "Email not verified. Please verify your email before logging in."
    ∧ login c3Db 0 "absent@example.com" "correct-pw" false
      = .httpError 401 "Incorrect email or password"
    ∧ login c3Db 0 "carol@example.com" "correct-pw" false
      ≠ login c3Db 0 "absent@example.com" "correct-pw" false := by
  decide

/-- C3 amended: `authenticate_user` fails with the same `None` in all three cases
(user absent, password mismatch, `is_active = false`); the `login` route answers
the identical 401 for absent user and wrong password, but distinguishes the
inactive case with a 400 and a different detail. -/
theorem authenticate_user_undifferentiated (db : DBState) (now : Nat)
    (email password : String) (remember_me : Bool) :
    (db.users.find? (fun u => u.email == email) = Option.none →
      authenticate_user db email password = Option.none
      ∧ login db now email password remember_me
          = .httpError 401 "Incorrect email or password")
    ∧ (∀ u, db.users.find? (fun v => v.email == email) = some u →
        verify_password password u.hashed_password = false →
      authenticate_user db email password = Option.none
      ∧ login db now email password remember_me
          = .httpError 401 "Incorrect email or password")
    ∧ (∀ u, db.users.find? (fun v => v.email == email) = some u →
        verify_password password u.hashed_password = true → u.is_active = false →
      authenticate_user db email password = Option.none
      ∧ login db now email password remember_me
          = .httpError 400 "Email not verified. Please verify your email before logging in.") := by
  refine ⟨?_, ?_, ?_⟩
  · intro h
    exact ⟨by simp [authenticate_user, h], by simp [login, h]⟩
  · intro u hu hv
    exact ⟨by simp [authenticate_user, hu, hv], by simp [login, hu, hv]⟩
  · intro u hu hv ha
    exact ⟨by simp [authenticate_user, hu, hv, ha], by simp [login, hu, hv, ha]⟩

/-- Witness for the amended C3 at the concrete scenario: the inactive user with the
correct password is rejected by `authenticate_user` and gets the distinct 400 from
the route. -/
theorem authenticate_user_undifferentiated_witness :
    authenticate_user c3Db "carol@example.com" "correct-pw" = Option.none
    ∧ login c3Db 0 "carol@example.com" "correct-pw" false
        = .httpError 400 "Email not verified. Please verify your email before logging in." :=
  (authenticate_user_undifferentiated c3Db 0 "carol@example.com" "correct-pw" false).2.2
    c3User (by decide) (by decide) (by decide)

/-! ## C6 — verification resend (corrected)

The `send_verification_email` route never consults `is_active`: an already-active
user gets a fresh verification token and a mail-port call, not a no-op. -/

/-- The already-verified user of the C6 scenario. -/
def c6User : User :=
  { id := 1, email := "erin@example.com", username := "erin",
    hashed_password := hash_password "pw", full_name := Option.none,
    is_active := true, is_superuser := false, created_at := 0, updated_at := 0,
    last_login := Option.none }

/-- The C6 scenario state: a single already-active user, empty mail log. -/
def c6Db : DBState :=
  { users := [c6User], sessions := [], teams := [], team_members := [],
    invitations := [], next_invitation_id := 1, mail_log := [] }

/-- C6 counterexample: for an existing, already-active user the route does NOT
return a no-op — it issues a fresh verification token and performs a mail-port
call. -/
theorem send_verification_email_resends_when_active :
    c6User.is_active = true
    ∧ (send_verification_email c6Db 0 "erin@example.com").1 = .ok true
    ∧ (send_verification_email c6Db 0 "erin@example.com").2.mail_log
        = [{ recipient := "erin@example.com", kind := .verification,
             token := create_verification_token 0 "erin@example.com" }] := by
  decide

/-- C6 amended: the route fails 404 when no user carries the email; when the user
exists — active or not — it issues a new verification token and hands it to the
mail port. -/
theorem send_verification_email_spec (db : DBState) (now : Nat) (email : String) :
    (db.users.find? (fun u => u.email == email) = Option.none →
      send_verification_email db now email = (.httpError 404, db))
    ∧ (∀ u, db.users.find? (fun v => v.email == email) = some u →
      send_verification_email db now email
        = (.ok true, { db with mail_log := db.mail_log ++
            [{ recipient := email, kind := .verification,
               token := create_verification_token now email }] })) := by
  constructor
  · intro h
    simp [send_verification_email, h]
  · intro u hu
    simp [send_verification_email, hu]

/-- Witness for the amended C6: the already-active user still triggers a token
issue and a send. -/
theorem send_verification_email_spec_witness :
    send_verification_email c6Db 0 "erin@example.com"
      = (.ok true, { c6Db with mail_log := c6Db.mail_log ++
          [{ recipient := "erin@example.com", kind := .verification,
             token := create_verification_token 0 "erin@example.com" }] }) :=
  (send_verification_email_spec c6Db 0 "erin@example.com").2 c6User (by decide)

/-! ## C7 — anti-enumeration on password-reset request (confirmed) -/

/-- C7: `forgot_password` answers a 200 success body for every email; and when no
user carries the email, the state is returned untouched — no `password_reset`
token is issued and the mail port receives zero calls. -/
theorem forgot_password_anti_enumeration (db : DBState) (now : Nat) (email : String) :
    (∃ email_sent, (forgot_password db now email).1 = .ok email_sent)
    ∧ (db.users.find? (fun u => u.email == email) = Option.none →
        forgot_password db now email = (.ok false, db)) := by
  constructor
  · unfold forgot_password
    cases h : db.users.find? (fun u => u.email == email) with
    | none => exact ⟨false, rfl⟩
    | some u => exact ⟨true, rfl⟩
  · intro h
    simp [forgot_password, h]

/-- The C7 scenario state: no users at all. -/
def c7Db : DBState :=
  { users := [], sessions := [], teams := [], team_members := [],
    invitations := [], next_invitation_id := 1, mail_log := [] }

/-- Witness for C7: requesting a reset for an unknown email succeeds with
`email_sent = false` and leaves the state (in particular the mail log) unchanged. -/
theorem forgot_password_anti_enumeration_witness :
    (∃ email_sent, (forgot_password c7Db 0 "nonexistent@x.com").1 = .ok email_sent)
    ∧ forgot_password c7Db 0 "nonexistent@x.com" = (.ok false, c7Db) :=
  ⟨(forgot_password_anti_enumeration c7Db 0 "nonexistent@x.com").1,
   (forgot_password_anti_enumeration c7Db 0 "nonexistent@x.com").2 (by decide)⟩

/-! ## C5 — join by invite code (corrected)

The membership query of `join_team_by_invite_code` filters only on `user_id` and
`team_id`, never on `is_active`: a previously removed (inactive) membership row
still blocks the rejoin with `AlreadyMember`. -/

/-- The rejoining user of the C5 scenario. -/
def c5User : User :=
  { id := 1, email := "dave@example.com", username := "dave",
    hashed_password := hash_password "pw", full_name := Option.none,
    is_active := true, is_superuser := false, created_at := 0, updated_at := 0,
    last_login := Option.none }

/-- The team of the C5 scenario. -/
def c5Team : Team :=
  { id := 1, name := "Acme", description := Option.none, invite_code := "ABCD1234",
    is_active := true, created_by_id := 2 }

/-- The single membership row of the C5 scenario: soft-deactivated (the user was
removed from the team). -/
def c5Member : TeamMember :=
  { user_id := 1, team_id := 1, role := "member", joined_at := 0, is_active := false }

/-- The C5 scenario state. -/
def c5Db : DBState :=
  { users := [c5User], sessions := [], teams := [c5Team], team_members := [c5Member],
    invitations := [], next_invitation_id := 1, mail_log := [] }

/-- C5 counterexample: the only membership row for the (user, team) pair is
inactive, yet the join is rejected with `AlreadyMember` instead of inserting a new
active membership. -/
theorem join_blocks_inactive_membership :
    c5Db.team_members = [c5Member]
    ∧ c5Member.is_active = false
    ∧ join_team_by_invite_code c5Db 0 1 "ABCD1234"
        = (.httpError 400 "User is already a member of this team", c5Db) := by
  decide

/-- C5 amended: 404 when the user or a code-matching team is absent; `AlreadyMember`
exactly when ANY membership row — active or inactive — exists for the pair;
otherwise a `member`-role active row is inserted. -/
theorem join_team_by_invite_code_spec (db : DBState) (now : Nat) (user_id : Nat)
    (invite_code : String) :
    (db.users.find? (fun u => u.id == user_id) = Option.none →
      join_team_by_invite_code db now user_id invite_code
        = (.httpError 404 "User not found", db))
    ∧ (∀ u, db.users.find? (fun v => v.id == user_id) = some u →
        db.teams.find? (fun t => t.invite_code == invite_code) = Option.none →
      join_team_by_invite_code db now user_id invite_code
        = (.httpError 404 "Invalid invite code", db))
    ∧ (∀ u tm m, db.users.find? (fun v => v.id == user_id) = some u →
        db.teams.find? (fun t => t.invite_code == invite_code) = some tm →
        db.team_members.find? (fun r => r.user_id == user_id && r.team_id == tm.id) = some m →
      join_team_by_invite_code db now user_id invite_code
        = (.httpError 400 "User is already a member of this team", db))
    ∧ (∀ u tm, db.users.find? (fun v => v.id == user_id) = some u →
        db.teams.find? (fun t => t.invite_code == invite_code) = some tm →
        db.team_members.find? (fun r => r.user_id == user_id && r.team_id == tm.id) = Option.none →
      join_team_by_invite_code db now user_id invite_code
        = (.ok tm.id "member",
           { db with team_members := db.team_members ++
               [{ user_id := user_id, team_id := tm.id, role := "member",
                  joined_at := now, is_active := true }] })) := by
  refine ⟨?_, ?_, ?_, ?_⟩
  · intro h
    simp [join_team_by_invite_code, h]
  · intro u hu ht
    simp [join_team_by_invite_code, hu, ht]
  · intro u tm m hu ht hm
    simp [join_team_by_invite_code, hu, ht, hm]
  · intro u tm hu ht hm
    simp [join_team_by_invite_code, hu, ht, hm]

/-- Witness for the amended C5 at the concrete scenario: the inactive row triggers
`AlreadyMember`. -/
theorem join_team_by_invite_code_spec_witness :
    join_team_by_invite_code c5Db 0 1 "ABCD1234"
      = (.httpError 400 "User is already a member of this team", c5Db) :=
  (join_team_by_invite_code_spec c5Db 0 1 "ABCD1234").2.2.1 c5User c5Team c5Member
    (by decide) (by decide) (by decide)

/-! ## C8 — invite idempotence (confirmed) -/

theorem optionNat_beq_self (o : Option Nat) : (o == o) = true := by
  cases o <;> simp

/-- The fresh invitation row that `create_team_invitation` inserts when the
deduplication query finds nothing. -/
def fresh_invitation (db : DBState) (now : Nat) (team_id inviter_id : Nat)
    (invitee_email : String) (invitee_id : Option Nat) (expiration_days : Nat) :
    TeamInvitation :=
  { id := db.next_invitation_id, team_id := team_id, inviter_id := inviter_id,
    invitee_id := invitee_id, invitee_email := invitee_email, status := "pending",
    token := mkInvitationToken db.next_invitation_id,
    expires_at := now + expiration_days * 1440 }

/-- The state after `create_team_invitation` inserts a fresh invitation. -/
def after_invitation_insert (db : DBState) (now : Nat) (team_id inviter_id : Nat)
    (invitee_email : String) (invitee_id : Option Nat) (expiration_days : Nat) :
    DBState :=
  { db with
    invitations := db.invitations ++
      [fresh_invitation db now team_id inviter_id invitee_email invitee_id
        expiration_days],
    next_invitation_id := db.next_invitation_id + 1 }

/-- Returning the pre-existing pending invitation: when the deduplication query
finds one, `create_team_invitation` hands it back and leaves the state untouched. -/
theorem create_team_invitation_returns_existing (db : DBState) (now : Nat)
    (team_id inviter_id : Nat) (invitee_email : String) (invitee_id : Option Nat)
    (expiration_days : Nat) (tm : Team) (member_row : TeamMember) (inv : TeamInvitation)
    (h1 : db.teams.find? (fun t => t.id == team_id) = some tm)
    (h2 : db.team_members.find? (fun m =>
        m.user_id == inviter_id && m.team_id == team_id && m.is_active) = some member_row)
    (h3 : (member_row.role == "") = false)
    (h4 : invitee_member_conflict db team_id invitee_id = false)
    (h5 : db.invitations.find?
        (pending_invitation_filter team_id invitee_email invitee_id) = some inv) :
    create_team_invitation db now team_id inviter_id invitee_email invitee_id
      expiration_days = (.ok inv, db) := by
  simp [create_team_invitation, h1, h2, h3, h4, h5]

/-- C8: under the preconditions of a fresh invitation (team present, inviter with
an active membership of non-empty role, invitee — when identified by a truthy id —
not an active member, no pending invitation yet for the pair), the first call
inserts one `pending` invitation and a second identical call returns that very
invitation, creating no second row and changing nothing. -/
theorem create_team_invitation_idempotent (db : DBState) (now : Nat)
    (team_id inviter_id : Nat) (invitee_email : String) (invitee_id : Option Nat)
    (expiration_days : Nat) (tm : Team) (member_row : TeamMember)
    (h1 : db.teams.find? (fun t => t.id == team_id) = some tm)
    (h2 : db.team_members.find? (fun m =>
        m.user_id == inviter_id && m.team_id == team_id && m.is_active) = some member_row)
    (h3 : (member_row.role == "") = false)
    (h4 : invitee_member_conflict db team_id invitee_id = false)
    (h5 : db.invitations.find?
        (pending_invitation_filter team_id invitee_email invitee_id) = Option.none) :
    ∃ inv db1,
      create_team_invitation db now team_id inviter_id invitee_email invitee_id
        expiration_days = (.ok inv, db1)
      ∧ db1.invitations = db.invitations ++ [inv]
      ∧ inv.status = "pending"
      ∧ create_team_invitation db1 now team_id inviter_id invitee_email invitee_id
          expiration_days = (.ok inv, db1) := by
  refine ⟨fresh_invitation db now team_id inviter_id invitee_email invitee_id
            expiration_days,
          after_invitation_insert db now team_id inviter_id invitee_email invitee_id
            expiration_days,
          ?_, rfl, rfl, ?_⟩
  · simp [create_team_invitation, fresh_invitation, after_invitation_insert,
      h1, h2, h3, h4, h5]
  · refine create_team_invitation_returns_existing _ _ _ _ _ _ _ tm member_row _
      ?_ ?_ ?_ ?_ ?_
    · exact h1
    · exact h2
    · exact h3
    · exact h4
    show (db.invitations ++
        [fresh_invitation db now team_id inviter_id invitee_email invitee_id
          expiration_days]).find?
        (pending_invitation_filter team_id invitee_email invitee_id) = _
    rw [List.find?_append, h5]
    simp [pending_invitation_filter, fresh_invitation, optionNat_beq_self]

/-- The team of the C8 scenario. -/
def c8Team : Team :=
  { id := 1, name := "Acme", description := Option.none, invite_code := "TEAMCODE",
    is_active := true, created_by_id := 2 }

/-- The inviter's active membership row in the C8 scenario. -/
def c8Inviter : TeamMember :=
  { user_id := 2, team_id := 1, role := "admin", joined_at := 0, is_active := true }

/-- The C8 scenario state: one team, the inviter an active member, no invitations. -/
def c8Db : DBState :=
  { users := [], sessions := [], teams := [c8Team], team_members := [c8Inviter],
    invitations := [], next_invitation_id := 1, mail_log := [] }

/-- Witness for C8: in the concrete scenario the double invite returns one and the
same invitation and leaves exactly one row. -/
theorem create_team_invitation_idempotent_witness :
    ∃ inv db1,
      create_team_invitation c8Db 0 1 2 "frank@example.com" (some 3) 7 = (.ok inv, db1)
      ∧ db1.invitations = c8Db.invitations ++ [inv]
      ∧ inv.status = "pending"
      ∧ create_team_invitation db1 0 1 2 "frank@example.com" (some 3) 7
          = (.ok inv, db1) :=
  create_team_invitation_idempotent c8Db 0 1 2 "frank@example.com" (some 3) 7
    c8Team c8Inviter (by decide) (by decide) (by decide) (by decide) (by decide)

/-! ## C2 / C9 — session validation: correctness and frame -/

theorem updateFirst_length (p : α → Bool) (f : α → α) :
    ∀ l : List α, (updateFirst p f l).length = l.length := by
  intro l
  induction l with
  | nil => rfl
  | cons x xs ih => by_cases hp : p x <;> simp [updateFirst, hp, ih]

theorem updateFirst_get (p : α → Bool) (f : α → α) :
    ∀ (l : List α) (i : Nat) (h : i < l.length) (h' : i < (updateFirst p f l).length),
      (updateFirst p f l).get ⟨i, h'⟩ = l.get ⟨i, h⟩
      ∨ (updateFirst p f l).get ⟨i, h'⟩ = f (l.get ⟨i, h⟩) := by
  intro l
  induction l with
  | nil =>
    intro i h _
    exact absurd h (by simp)
  | cons x xs ih =>
    intro i h h'
    by_cases hp : p x
    · cases i with
      | zero => right; simp [updateFirst, hp]
      | succ n => left; simp [updateFirst, hp]
    · cases i with
      | zero => left; simp [updateFirst, hp]
      | succ n =>
        have h2 : n < xs.length := by simpa using Nat.lt_of_succ_lt_succ h
        have h2' : n < (updateFirst p f xs).length := by
          rw [updateFirst_length]; exact h2
        have hcons : (updateFirst p f (x :: xs)).get ⟨n + 1, h'⟩
            = (updateFirst p f xs).get ⟨n, h2'⟩ := by
          simp [updateFirst, hp]
        rcases ih n h2 h2' with hc | hc
        · left; rw [hcons, hc]; simp
        · right; rw [hcons, hc]; simp

/-- After `terminate_session`, no session passes the `validate_session` filter for
the same token, provided the session tokens are unique (the `token` column carries
a unique index). -/
theorem find?_after_terminate (now' : Nat) (token : String) :
    ∀ l : List UserSession, l.Pairwise (fun a b => a.token ≠ b.token) →
      (updateFirst (fun s => s.token == token && s.is_active)
        (fun s => { s with is_active := false }) l).find? (session_filter now' token)
        = Option.none := by
  intro l
  induction l with
  | nil => intro _; rfl
  | cons x xs ih =>
    intro hpw
    rw [List.pairwise_cons] at hpw
    obtain ⟨hx, hxs⟩ := hpw
    by_cases hp : (x.token == token && x.is_active) = true
    · have hxtok : x.token = token := by
        have := (Bool.and_eq_true _ _).mp hp
        exact beq_iff_eq.mp this.1
      rw [show updateFirst (fun s => s.token == token && s.is_active)
          (fun s => { s with is_active := false }) (x :: xs)
          = { x with is_active := false } :: xs by simp [updateFirst, hp]]
      rw [List.find?_cons_of_neg, List.find?_eq_none]
      · intro s hs
        have : s.token ≠ token := hxtok ▸ (hx s hs).symm
        simp [session_filter, this]
      · simp [session_filter]
    · rw [show updateFirst (fun s => s.token == token && s.is_active)
          (fun s => { s with is_active := false }) (x :: xs)
          = x :: updateFirst (fun s => s.token == token && s.is_active)
              (fun s => { s with is_active := false }) xs by simp [updateFirst, hp]]
      rw [List.find?_cons_of_neg, ih hxs]
      intro hq
      apply hp
      unfold session_filter at hq
      rcases (Bool.and_eq_true _ _).mp hq with ⟨hq1, _⟩
      exact hq1

/-- C2: under the stored uniqueness and foreign-key constraints (unique session
tokens; every session's `user_id` owned by some user), `validate_session` succeeds
exactly when a session with the token exists that is still active and whose
`expires_at` is strictly in the future; a success returns the owning user; when
every session with the token has expired it fails; and after `terminate_session`
on the token it fails at every later time. -/
theorem validate_session_spec (db : DBState) (now : Nat) (token : String)
    (hfk : ∀ sess ∈ db.sessions, ∃ u ∈ db.users, u.id = sess.user_id)
    (huniq : db.sessions.Pairwise (fun a b => a.token ≠ b.token)) :
    ((validate_session db now token).1.isSome = true ↔
      ∃ sess ∈ db.sessions, sess.token = token ∧ sess.is_active = true
        ∧ now < sess.expires_at)
    ∧ (∀ u, (validate_session db now token).1 = some u →
        u ∈ db.users ∧ ∃ sess ∈ db.sessions, sess.token = token
          ∧ sess.is_active = true ∧ now < sess.expires_at ∧ u.id = sess.user_id)
    ∧ ((∀ sess ∈ db.sessions, sess.token = token → sess.expires_at ≤ now) →
        (validate_session db now token).1 = Option.none)
    ∧ (∀ now', (validate_session (terminate_session db token).2 now' token).1
        = Option.none) := by
  have hchar : ∀ s : UserSession, session_filter now token s = true ↔
      s.token = token ∧ s.is_active = true ∧ now < s.expires_at := by
    intro s
    simp [session_filter, and_assoc]
  have hfst : (validate_session db now token).1
      = match db.sessions.find? (session_filter now token) with
        | Option.none => Option.none
        | some sess => db.users.find? (fun u => u.id == sess.user_id) := by
    unfold validate_session
    cases db.sessions.find? (session_filter now token) <;> rfl
  refine ⟨?_, ?_, ?_, ?_⟩
  · rw [hfst]
    cases hfind : db.sessions.find? (session_filter now token) with
    | none =>
      show Option.none.isSome = true ↔ _
      simp only [Option.isSome_none, Bool.false_eq_true, false_iff]
      rintro ⟨sess, hm, h1, h2, h3⟩
      rw [List.find?_eq_none] at hfind
      exact hfind sess hm ((hchar sess).mpr ⟨h1, h2, h3⟩)
    | some sess =>
      have hm := List.mem_of_find?_eq_some hfind
      have hps := (hchar sess).mp (List.find?_some hfind)
      dsimp only
      constructor
      · intro _
        exact ⟨sess, hm, hps⟩
      · intro _
        obtain ⟨u, hu, hid⟩ := hfk sess hm
        rw [List.find?_isSome]
        exact ⟨u, hu, by simp [hid]⟩
  · intro u hu
    rw [hfst] at hu
    cases hfind : db.sessions.find? (session_filter now token) with
    | none =>
      rw [hfind] at hu
      exact absurd hu (by simp)
    | some sess =>
      rw [hfind] at hu
      replace hu : db.users.find? (fun v => v.id == sess.user_id) = some u := hu
      have hm := List.mem_of_find?_eq_some hfind
      have hps := (hchar sess).mp (List.find?_some hfind)
      have hbeq := List.find?_some hu
      simp only [beq_iff_eq] at hbeq
      exact ⟨List.mem_of_find?_eq_some hu, sess, hm, hps.1, hps.2.1, hps.2.2, hbeq⟩
  · intro hexp
    rw [hfst]
    cases hfind : db.sessions.find? (session_filter now token) with
    | none => rfl
    | some sess =>
      have hm := List.mem_of_find?_eq_some hfind
      have hps := (hchar sess).mp (List.find?_some hfind)
      exact absurd (hexp sess hm hps.1) (Nat.not_le.mpr hps.2.2)
  · intro now'
    unfold terminate_session
    cases hfind : db.sessions.find? (fun s => s.token == token && s.is_active) with
    | none =>
      have hnone : db.sessions.find? (session_filter now' token) = Option.none := by
        rw [List.find?_eq_none] at hfind ⊢
        intro s hs hq
        apply hfind s hs
        unfold session_filter at hq
        exact ((Bool.and_eq_true _ _).mp hq).1
      dsimp only
      unfold validate_session
      rw [hnone]
    | some s0 =>
      have h2 := find?_after_terminate now' token db.sessions huniq
      simp [validate_session, h2]

/-- The session owner of the C2 scenario. -/
def c2User : User :=
  { id := 1, email := "bob@example.com", username := "bob",
    hashed_password := hash_password "pw", full_name := Option.none,
    is_active := true, is_superuser := false, created_at := 0, updated_at := 0,
    last_login := some 0 }

/-- The live session of the C2 scenario: active, expiring at 100. -/
def c2Session : UserSession :=
  { id := 1, user_id := 1, token := "c2-token", expires_at := 100, created_at := 0,
    last_active_at := 0, ip_address := Option.none, user_agent := Option.none,
    is_active := true }

/-- The C2 scenario state. -/
def c2Db : DBState :=
  { users := [c2User], sessions := [c2Session], teams := [], team_members := [],
    invitations := [], next_invitation_id := 1, mail_log := [] }

/-- Witness for C2 at the concrete scenario (whose state satisfies the uniqueness
and foreign-key hypotheses): the validity characterization at time 5, and failure
after logout at every later time. -/
theorem validate_session_spec_witness :
    ((validate_session c2Db 5 "c2-token").1.isSome = true ↔
      ∃ sess ∈ c2Db.sessions, sess.token = "c2-token" ∧ sess.is_active = true
        ∧ 5 < sess.expires_at)
    ∧ (∀ now', (validate_session (terminate_session c2Db "c2-token").2 now' "c2-token").1
        = Option.none) :=
  ⟨(validate_session_spec c2Db 5 "c2-token" (by decide) (by decide)).1,
   (validate_session_spec c2Db 5 "c2-token" (by decide) (by decide)).2.2.2⟩

/-- C9: a successful `validate_session` changes nothing but the matched session's
`last_active_at` — every other table of the state is untouched, the session table
keeps its length, and at every index the `token`, `user_id`, `expires_at`,
`is_active`, `created_at`, `ip_address`, `user_agent` and `id` fields (hence every
field of every User row as well, the user table being unchanged) are preserved. -/
theorem validate_session_frame (db : DBState) (now : Nat) (token : String)
    (u : User) (db1 : DBState)
    (h : validate_session db now token = (some u, db1)) :
    db1.users = db.users
    ∧ db1.teams = db.teams
    ∧ db1.team_members = db.team_members
    ∧ db1.invitations = db.invitations
    ∧ db1.mail_log = db.mail_log
    ∧ db1.next_invitation_id = db.next_invitation_id
    ∧ db1.sessions.length = db.sessions.length
    ∧ (∀ (i : Nat) (hi : i < db.sessions.length) (hi' : i < db1.sessions.length),
        (db1.sessions.get ⟨i, hi'⟩).token = (db.sessions.get ⟨i, hi⟩).token
        ∧ (db1.sessions.get ⟨i, hi'⟩).user_id = (db.sessions.get ⟨i, hi⟩).user_id
        ∧ (db1.sessions.get ⟨i, hi'⟩).expires_at = (db.sessions.get ⟨i, hi⟩).expires_at
        ∧ (db1.sessions.get ⟨i, hi'⟩).is_active = (db.sessions.get ⟨i, hi⟩).is_active
        ∧ (db1.sessions.get ⟨i, hi'⟩).created_at = (db.sessions.get ⟨i, hi⟩).created_at
        ∧ (db1.sessions.get ⟨i, hi'⟩).ip_address = (db.sessions.get ⟨i, hi⟩).ip_address
        ∧ (db1.sessions.get ⟨i, hi'⟩).user_agent = (db.sessions.get ⟨i, hi⟩).user_agent
        ∧ (db1.sessions.get ⟨i, hi'⟩).id = (db.sessions.get ⟨i, hi⟩).id) := by
  unfold validate_session at h
  cases hfind : db.sessions.find? (session_filter now token) with
  | none =>
    rw [hfind] at h
    exact absurd (congrArg Prod.fst h) (by simp)
  | some sess =>
    rw [hfind] at h
    replace h : (db.users.find? (fun v => v.id == sess.user_id), ({ db with sessions := updateFirst (session_filter now token) (fun s => { s with last_active_at := now }) db.sessions } : DBState)) = (some u, db1) := h
    rw [Prod.mk.injEq] at h
    obtain ⟨-, hdb⟩ := h
    subst hdb
    refine ⟨rfl, rfl, rfl, rfl, rfl, rfl, updateFirst_length _ _ _, ?_⟩
    intro i hi hi'
    have hg : ({ db with sessions := updateFirst (session_filter now token) (fun s => { s with last_active_at := now }) db.sessions } : DBState).sessions.get ⟨i, hi'⟩ = (updateFirst (session_filter now token) (fun s => { s with last_active_at := now }) db.sessions).get ⟨i, hi'⟩ := rfl
    rcases updateFirst_get (session_filter now token)
        (fun s => { s with last_active_at := now }) db.sessions i hi hi' with hc | hc <;>
      rw [hg, hc] <;>
      exact ⟨rfl, rfl, rfl, rfl, rfl, rfl, rfl, rfl⟩

/-- The session owner of the C9 scenario. -/
def c9User : User :=
  { id := 4, email := "grace@example.com", username := "grace",
    hashed_password := hash_password "pw", full_name := Option.none,
    is_active := true, is_superuser := false, created_at := 0, updated_at := 0,
    last_login := some 0 }

/-- The live session of the C9 scenario. -/
def c9Session : UserSession :=
  { id := 7, user_id := 4, token := "c9-token", expires_at := 50, created_at := 1,
    last_active_at := 1, ip_address := some "10.0.0.1", user_agent := some "curl",
    is_active := true }

/-- The C9 scenario state. -/
def c9Db : DBState :=
  { users := [c9User], sessions := [c9Session], teams := [], team_members := [],
    invitations := [], next_invitation_id := 1, mail_log := [] }

/-- The state after the C9 scenario validation. -/
def c9Db1 : DBState := (validate_session c9Db 5 "c9-token").2

/-- Witness for C9: the concrete successful validation keeps the user table and
the session-table length. -/
theorem validate_session_frame_witness :
    c9Db1.users = c9Db.users ∧ c9Db1.sessions.length = c9Db.sessions.length :=
  ⟨(validate_session_frame c9Db 5 "c9-token" c9User c9Db1 (by decide)).1,
   (validate_session_frame c9Db 5 "c9-token" c9User c9Db1 (by decide)).2.2.2.2.2.2.1⟩

end PulseCheck
